import Mathlib

/-!
Verification development for `node-red-contrib-freebox` (`src/freebox.js`).

The file shallowly embeds the `FreeboxServerNode` class: its mutable fields
become an explicit `World` record, every promise chain becomes a function in a
state-plus-error monad `M`, and the HTTP transport (axios) becomes an oracle
mapping the index of each issued request to either a decoded response or a
rejection value.  JavaScript values that flow through the code (response
bodies, error objects, headers) are modelled by `JsValue`, with JS truthiness,
property access on `undefined`/`null` throwing `TypeError`, and template
string coercion reproduced faithfully.  The HMAC-SHA1 used for the session
password (Node `crypto.createHmac('sha1', token).update(challenge).digest('hex')`)
is implemented concretely over byte lists.
-/

namespace Freebox

/-- A JavaScript value, as far as the code under study observes one:
`undefined`, `null`, booleans, (integer) numbers, strings and plain objects
given by an ordered field list. -/
inductive JsValue where
  | undefined
  | null
  | bool (b : Bool)
  | num (n : Int)
  | str (s : String)
  | obj (fields : List (String × JsValue))

/-- First field of the given name, or `undefined` — JS property lookup on a
plain object. -/
def getField : List (String × JsValue) → String → JsValue
  | [], _ => .undefined
  | (k, v) :: fs, key => if k = key then v else getField fs key

/-- A `TypeError` instance as a JS value (`name` and `message` fields). -/
def typeErrorVal (msg : String) : JsValue :=
  .obj [("name", .str "TypeError"), ("message", .str msg)]

/-- JS strict equality of a value with a string literal, as used by the
`switch` over the authorization status. -/
def isStr (v : JsValue) (s : String) : Bool :=
  match v with
  | .str t => t = s
  | _ => false

/-- Whether a value looks like a `TypeError` (its `name` field). -/
def isTypeErrorVal : JsValue → Bool
  | .obj fs => isStr (getField fs "name") "TypeError"
  | _ => false

/-- JS property access `v.key`: throws `TypeError` on `undefined`/`null`,
returns the field (or `undefined`) on objects, and `undefined` on other
primitives (none of the accessed names is a built-in of a JS primitive). -/
def JsValue.getProp : JsValue → String → Except JsValue JsValue
  | .undefined, key => .error (typeErrorVal ("Cannot read properties of undefined: " ++ key))
  | .null, key => .error (typeErrorVal ("Cannot read properties of null: " ++ key))
  | .obj fs, key => .ok (getField fs key)
  | _, _ => .ok .undefined

/-- The JS `in` operator: field-name membership on objects, `TypeError` on
anything that is not an object. -/
def hasProp (v : JsValue) (key : String) : Except JsValue Bool :=
  match v with
  | .obj fs => .ok (fs.any (fun p => decide (p.1 = key)))
  | _ => .error (typeErrorVal ("Cannot use in operator to search for " ++ key))

/-- JS truthiness. -/
def JsValue.truthy : JsValue → Bool
  | .undefined => false
  | .null => false
  | .bool b => b
  | .num n => decide (n ≠ 0)
  | .str s => decide (s ≠ "")
  | .obj _ => true

/-- Coercion of a value interpolated into a JS template literal. -/
def jsTemplateStr : JsValue → String
  | .undefined => "undefined"
  | .null => "null"
  | .bool b => if b then "true" else "false"
  | .num n => toString n
  | .str s => s
  | .obj _ => "[object Object]"

/-- Values a string method (`substr`, `indexOf`) can be called on in our
model: strings only; anything else raises `TypeError` as in JS. -/
def asJsString : JsValue → Except JsValue String
  | .str s => .ok s
  | _ => .error (typeErrorVal "value has no string methods")

/-- Index of the first occurrence of `c`, `-1` when absent — JS
`String.prototype.indexOf` restricted to single-character needles. -/
def jsIndexOfAux (c : Char) : List Char → Int
  | [] => -1
  | a :: l =>
      if a = c then 0
      else
        let r := jsIndexOfAux c l
        if r < 0 then -1 else r + 1

/-- JS `s.indexOf(c)` for a one-character needle. -/
def jsIndexOf (s : String) (c : Char) : Int := jsIndexOfAux c s.data

/-- JS `s.substr(0, len)`: empty for a non-positive length, otherwise the
first `len` characters. -/
def jsSubstrTo (s : String) (len : Int) : String :=
  if len ≤ 0 then "" else String.mk (s.data.take len.toNat)

/-- Whether a rejection value has no usable `config` field: true for every
non-object and for objects whose `config` field is absent. -/
def lacksConfig : JsValue → Bool
  | .obj fs =>
      match getField fs "config" with
      | .undefined => true
      | _ => false
  | _ => true

/-- Concatenation of a list of lists (used for byte and hex assembly). -/
def listJoin : List (List α) → List α
  | [] => []
  | l :: ls => l ++ listJoin ls

/-- Truncation to 32 bits. -/
def w32 (n : Nat) : Nat := n % 4294967296

/-- 32-bit left rotation of `n < 2^32` by `s ≤ 32` bits. -/
def rotl32 (s n : Nat) : Nat := w32 (n * 2 ^ s + n / 2 ^ (32 - s))

/-- 32-bit bitwise complement of `n < 2^32`. -/
def not32 (n : Nat) : Nat := Nat.xor 4294967295 n

/-- The SHA-1 round function for round `t`. -/
def sha1F (t b c d : Nat) : Nat :=
  if t < 20 then Nat.lor (Nat.land b c) (Nat.land (not32 b) d)
  else if t < 40 then Nat.xor b (Nat.xor c d)
  else if t < 60 then Nat.lor (Nat.lor (Nat.land b c) (Nat.land b d)) (Nat.land c d)
  else Nat.xor b (Nat.xor c d)

/-- The SHA-1 round constant for round `t`. -/
def sha1K (t : Nat) : Nat :=
  if t < 20 then 0x5A827999
  else if t < 40 then 0x6ED9EBA1
  else if t < 60 then 0x8F1BBCDC
  else 0xCA62C1D6

/-- One pass of the 80 SHA-1 rounds over the message schedule, starting at
round index `t` with working state `(a, b, c, d, e)`. -/
def sha1Rounds : List Nat → Nat → Nat × Nat × Nat × Nat × Nat → Nat × Nat × Nat × Nat × Nat
  | [], _, st => st
  | wt :: ws, t, (a, b, c, d, e) =>
      let tmp := w32 (rotl32 5 a + sha1F t b c d + e + sha1K t + wt)
      sha1Rounds ws (t + 1) (tmp, a, rotl32 30 b, c, d)

/-- Message-schedule extension: appends `n` further words, each the 1-bit
rotation of the XOR of the words 3, 8, 14 and 16 positions back. -/
def sha1Extend : List Nat → Nat → List Nat
  | ws, 0 => ws
  | ws, n + 1 =>
      let i := ws.length
      let word := rotl32 1 (Nat.xor (ws.getD (i - 3) 0)
        (Nat.xor (ws.getD (i - 8) 0) (Nat.xor (ws.getD (i - 14) 0) (ws.getD (i - 16) 0))))
      sha1Extend (ws ++ [word]) n

/-- Big-endian grouping of bytes into 32-bit words. -/
def bytesToWords : List Nat → List Nat
  | b0 :: b1 :: b2 :: b3 :: rest => (((b0 * 256 + b1) * 256 + b2) * 256 + b3) :: bytesToWords rest
  | _ => []

/-- The `k` low-order bytes of `n`, big-endian. -/
def beBytes : Nat → Nat → List Nat
  | 0, _ => []
  | k + 1, n => beBytes k (n / 256) ++ [n % 256]

/-- SHA-1 padding: a `0x80` byte, zero fill to 56 mod 64, then the bit length
as 8 big-endian bytes. -/
def sha1Pad (msg : List Nat) : List Nat :=
  msg ++ [128] ++ List.replicate ((119 - msg.length % 64) % 64) 0 ++ beBytes 8 (msg.length * 8)

/-- Compression of `n` consecutive 64-byte blocks into the chaining state. -/
def sha1Loop : Nat → List Nat → Nat × Nat × Nat × Nat × Nat → Nat × Nat × Nat × Nat × Nat
  | 0, _, st => st
  | n + 1, bytes, (h0, h1, h2, h3, h4) =>
      let ws := sha1Extend (bytesToWords (bytes.take 64)) 64
      let (a, b, c, d, e) := sha1Rounds ws 0 (h0, h1, h2, h3, h4)
      sha1Loop n (bytes.drop 64)
        (w32 (h0 + a), w32 (h1 + b), w32 (h2 + c), w32 (h3 + d), w32 (h4 + e))

/-- SHA-1 digest (20 bytes) of a byte list. -/
def sha1Bytes (msg : List Nat) : List Nat :=
  let padded := sha1Pad msg
  let st := sha1Loop (padded.length / 64) padded
    (0x67452301, 0xEFCDAB89, 0x98BADCFE, 0x10325476, 0xC3D2E1F0)
  match st with
  | (h0, h1, h2, h3, h4) =>
      beBytes 4 h0 ++ beBytes 4 h1 ++ beBytes 4 h2 ++ beBytes 4 h3 ++ beBytes 4 h4

/-- UTF-8 encoding of a single code point. -/
def utf8Bytes (c : Nat) : List Nat :=
  if c < 128 then [c]
  else if c < 2048 then [192 + c / 64, 128 + c % 64]
  else if c < 65536 then [224 + c / 4096, 128 + c / 64 % 64, 128 + c % 64]
  else [240 + c / 262144, 128 + c / 4096 % 64, 128 + c / 64 % 64, 128 + c % 64]

/-- UTF-8 bytes of a string (what Node feeds to the HMAC for string input). -/
def strBytes (s : String) : List Nat :=
  listJoin (s.data.map (fun c => utf8Bytes c.toNat))

/-- Lower-case hex digit for a nibble. -/
def hexDigitChar (n : Nat) : Char :=
  if n < 10 then Char.ofNat (48 + n) else Char.ofNat (87 + n)

/-- Two-digit lower-case hex rendering of one byte. -/
def byteHex (b : Nat) : List Char := [hexDigitChar (b / 16), hexDigitChar (b % 16)]

/-- Lower-case hex string of a byte list (Node `digest('hex')`). -/
def bytesToHex (bs : List Nat) : String := String.mk (listJoin (bs.map byteHex))

/-- HMAC-SHA1 over byte lists (RFC 2104 with a 64-byte block). -/
def hmacSha1 (key msg : List Nat) : List Nat :=
  let k0 := if 64 < key.length then sha1Bytes key else key
  let kp := k0 ++ List.replicate (64 - k0.length) 0
  let ipadded := kp.map (Nat.xor 54)
  let opadded := kp.map (Nat.xor 92)
  sha1Bytes (opadded ++ sha1Bytes (ipadded ++ msg))

/-- Node `crypto.createHmac('sha1', key).update(msg).digest('hex')` for
string key and message. -/
def hmacSha1Hex (key msg : String) : String :=
  bytesToHex (hmacSha1 (strBytes key) (strBytes msg))

/-- The HMAC step of `refreshSession` applied to the raw JS values it reads:
`crypto.createHmac('sha1', this.application.token).update(challenge)` throws a
`TypeError` unless both are strings (Buffers do not occur here). -/
def hmacJs : JsValue → JsValue → Except JsValue JsValue
  | .str key, .str msg => .ok (.str (hmacSha1Hex key msg))
  | .str _, _ => .error (typeErrorVal "hmac update argument must be a string")
  | _, _ => .error (typeErrorVal "hmac key must be a string")

/-- HTTP method chosen by the axios options object. -/
inductive Method where
  | GET
  | POST
deriving DecidableEq, Repr

/-- One HTTP request as handed to axios: the final URL, the method, the
request body (`undefined` when none) and the header list. -/
structure Request where
  url : String
  method : Method
  body : JsValue
  headers : List (String × JsValue)

/-- What the transport does with one request: resolve with the decoded JSON
body (the `data` field of the axios response), or reject with an error
value. -/
inductive TransportResult where
  | ok (data : JsValue)
  | err (e : JsValue)

/-- The transport oracle: the response to the `i`-th request issued by the
node, counting from 0 in issue order. -/
def Oracle : Type := Nat → TransportResult

/-- The `this.freebox` fields (`uid`, `device_name`, `device_type` and the
derived `baseUrl`). -/
structure FreeboxInfo where
  uid : JsValue
  deviceName : JsValue
  deviceType : JsValue
  baseUrl : String

/-- The `this.application` fields.  `this.application = {}` makes every field
read yield `undefined`, which this record models by setting all three fields
to `undefined`. -/
structure AppInfo where
  token : JsValue
  trackId : JsValue
  status : JsValue

/-- The `this.session` fields, with the same `{}`-reset convention. -/
structure SessionInfo where
  token : JsValue
  permissions : JsValue

/-- The full mutable state of one `FreeboxServerNode`, together with the
observable history: `credentials` is `this.credentials`, `extStore` the
Node-RED credential store (`RED.nodes.addCredentials` writes it,
`RED.nodes.deleteCredentials` clears it to `undefined`), `events` the names
emitted on `_statusChanged` in order, and `trace` the requests issued to the
transport in order. -/
structure World where
  freebox : FreeboxInfo
  application : AppInfo
  session : SessionInfo
  credentials : JsValue
  extStore : JsValue
  events : List String
  trace : List Request

/-- The promise-chain monad: explicit state passing plus a JS rejection
value.  A rejected chain keeps the state changes already made. -/
def M (α : Type) : Type := World → Except JsValue α × World

instance : Monad M where
  pure a := fun w => (Except.ok a, w)
  bind x f := fun w =>
    match x w with
    | (Except.ok a, w1) => f a w1
    | (Except.error e, w1) => (Except.error e, w1)

/-- Read the current node state. -/
def getW : M World := fun w => (Except.ok w, w)

/-- Replace the current node state. -/
def setW (w1 : World) : M Unit := fun _ => (Except.ok (), w1)

/-- Update the current node state. -/
def modifyW (f : World → World) : M Unit := fun w => (Except.ok (), f w)

/-- Reject the current chain with a JS value. -/
def throwJs (e : JsValue) : M α := fun w => (Except.error e, w)

/-- Turn a synchronous `Except` step into a chain step. -/
def liftE : Except JsValue α → M α
  | .ok a => fun w => (Except.ok a, w)
  | .error e => throwJs e

/-- `this._statusChanged.emit(name)`. -/
def emit (name : String) : M Unit :=
  modifyW (fun w => { w with events := w.events ++ [name] })

/-- A promise that is started but neither returned nor awaited (the bare
`this.registerApplication();` calls): its effects happen, its outcome is
dropped. -/
def detach (x : M α) : M Unit := fun w => (Except.ok (), (x w).2)

/-- `promise.then(onOk).catch(handler)` where the handler sees the rejection
value; used for the `init` chain. -/
def tryM (x : M α) (handler : JsValue → M α) : M α := fun w =>
  match x w with
  | (Except.ok a, w1) => (Except.ok a, w1)
  | (Except.error e, w1) => handler e w1

/-- The fixed application identity (the `APPLICATION` constant of the
source). -/
structure AppIdentity where
  appId : String
  appName : String
  appVersion : String
  deviceName : String

/-- The `APPLICATION` constant from `src/freebox.js` lines 7-12. -/
def APPLICATION : AppIdentity :=
  { appId := "node-red-contrib-freebox"
    appName := "node-red Freebox API"
    appVersion := "0.0.1"
    deviceName := "Node-red" }

/-- The axios options object built by `_internalApiCall` (lines 220-225):
URL is `freebox.baseUrl + url`, the method is `POST` exactly when `data` is
truthy, and the headers are passed through. -/
def mkReq (w : World) (url : String) (data : JsValue) (headers : List (String × JsValue)) :
    Request :=
  { url := w.freebox.baseUrl ++ url
    method := if data.truthy then .POST else .GET
    body := data
    headers := headers }

/-- The `.catch` handler of `_internalApiCall` (lines 229-232): it evaluates
`response.config.method` and `response.config.url` for the log line — which
itself throws a `TypeError` when `response.config` is not dereferenceable —
and then RETURNS the rejection value, which resolves the promise with the
error object as its value. -/
def catchHandler (response : JsValue) : Except JsValue JsValue :=
  match response.getProp "config" with
  | .error t => .error t
  | .ok cfg =>
      match cfg.getProp "method" with
      | .error t => .error t
      | .ok _ =>
          match cfg.getProp "url" with
          | .error t => .error t
          | .ok _ => .ok response

/-- `_internalApiCall(url, data, headers)` (lines 218-233): issue the request
built by `mkReq`, then `.then(({ data }) => data.result)` and the `.catch`
handler above.  A throw inside the `.then` handler (for example
`data.result` on a `null` body) also lands in the `.catch`. -/
def internalApiCall (o : Oracle) (url : String) (data : JsValue)
    (headers : List (String × JsValue)) : M JsValue := do
  let w ← getW
  modifyW (fun w1 => { w1 with trace := w1.trace ++ [mkReq w1 url data headers] })
  match o w.trace.length with
  | .ok d =>
      match d.getProp "result" with
      | .ok v => pure v
      | .error e => liftE (catchHandler e)
  | .err e => liftE (catchHandler e)

/-- The `this.application`/`this.session` value after an `= {}` reset: every
field reads as `undefined`. -/
def emptyApp : AppInfo := { token := .undefined, trackId := .undefined, status := .undefined }

/-- See `emptyApp`. -/
def emptySession : SessionInfo := { token := .undefined, permissions := .undefined }

/-- The discard sequence of the `timeout` and `default` branches (lines
121-124 and 133-136): `RED.nodes.deleteCredentials(node.id)`,
`this.credentials = {}`, `this.application = {}`, `this.session = {}`. -/
def discardAll (w : World) : World :=
  { w with
    extStore := .undefined
    credentials := .obj []
    application := emptyApp
    session := emptySession }

/-- `registerApplication()` (lines 89-155), with explicit fuel for the
unbounded polling recursion (fuel 0 models stopping an otherwise infinite
run; every claim below is settled at a fuel large enough for its script).
The recursive calls in the `pending` and `timeout` branches are issued
without being returned or awaited in the source, hence `detach`; the
fresh-authorize branch returns its recursive call, hence the plain bind. -/
def registerApplication (o : Oracle) : Nat → M JsValue
  | 0 => pure .undefined
  | fuel + 1 => do
    let w ← getW
    if (w.application.trackId).truthy then do
      let r ← internalApiCall o ("/login/authorize/" ++ jsTemplateStr w.application.trackId)
        .undefined []
      let status ← liftE (r.getProp "status")
      modifyW (fun w1 => { w1 with application := { w1.application with status := status } })
      if isStr status "pending" then do
        emit "application.pending"
        detach (registerApplication o fuel)
        pure .undefined
      else if isStr status "granted" then do
        emit "application.granted"
        modifyW (fun w1 =>
          let creds := JsValue.obj
            [("token", w1.application.token), ("trackId", w1.application.trackId)]
          { w1 with credentials := creds })
        modifyW (fun w1 => { w1 with extStore := w1.credentials })
        pure .undefined
      else if isStr status "timeout" then do
        emit "application.timeout"
        modifyW discardAll
        detach (registerApplication o fuel)
        pure .undefined
      else do
        emit "application.unknown"
        modifyW discardAll
        pure .undefined
    else do
      let r ← internalApiCall o "/login/authorize"
        (.obj [("app_id", .str APPLICATION.appId), ("app_name", .str APPLICATION.appName),
               ("app_version", .str APPLICATION.appVersion),
               ("device_name", .str APPLICATION.deviceName)]) []
      let app_token ← liftE (r.getProp "app_token")
      let track_id ← liftE (r.getProp "track_id")
      modifyW (fun w1 => { w1 with application :=
        { token := app_token, trackId := track_id, status := .str "" } })
      registerApplication o fuel

/-- The `.then(({ session_token, permissions }) => ...)` handler of the
open-session call (lines 175-183): emit `session.opened` and store the two
session fields read off the resolved value. -/
def openSessionThen (r2 : JsValue) : M JsValue := do
  let session_token ← liftE (r2.getProp "session_token")
  let permissions ← liftE (r2.getProp "permissions")
  emit "session.opened"
  modifyW (fun w1 => { w1 with session :=
    { token := session_token, permissions := permissions } })
  pure .undefined

/-- `refreshSession()` (lines 164-186): query `/login`; when `logged_in` is
falsy, compute the challenge-response password and POST `/login/session`,
chained into `openSessionThen`. -/
def refreshSession (o : Oracle) : M JsValue := do
  let r ← internalApiCall o "/login" .undefined []
  let logged_in ← liftE (r.getProp "logged_in")
  let challenge ← liftE (r.getProp "challenge")
  if logged_in.truthy then
    pure .undefined
  else do
    let w ← getW
    let password ← liftE (hmacJs w.application.token challenge)
    internalApiCall o "/login/session"
      (.obj [("app_id", .str APPLICATION.appId),
             ("app_version", .str APPLICATION.appVersion),
             ("password", password)]) [] >>= openSessionThen

/-- The methods defined on `FreeboxServerNode` (class body, lines 15-238).
The Node-RED `Node` prototype and `EventEmitter` add none named `call`. -/
def FreeboxServerNodeMethods : List String :=
  ["constructor", "init", "registerApplication", "refreshSession", "logout",
   "apiCall", "_internalApiCall", "statusChanged"]

/-- The rejection produced by invoking the missing method. -/
def callIsNotAFunction : JsValue := typeErrorVal "this.call is not a function"

/-- `logout()` (lines 193-198).  The source body is
`this.call('/login/logout', {}).then(...)`, but the class defines no method
named `call` (see `FreeboxServerNodeMethods`; the intended name is
`apiCall`), so the property access yields `undefined` and the invocation
throws a `TypeError` synchronously: no request is issued, no event emitted,
no state changed. -/
def logout : M JsValue := throwJs callIsNotAFunction

/-- `apiCall(url, data)` (lines 205-208): refresh the session, then issue the
call with the `X-Fbx-App-Auth` header carrying the session token read after
the refresh. -/
def apiCall (o : Oracle) (url : String) (data : JsValue) : M JsValue := do
  let _ ← refreshSession o
  let w ← getW
  internalApiCall o url data [("X-Fbx-App-Auth", w.session.token)]

/-- The scheme://host:port prefix built by `init` (line 53). -/
def freeboxUrlOf (host port : String) : String := "http://" ++ host ++ ":" ++ port

/-- The unauthenticated discovery request issued by `init` (line 55): a bare
`axios({ url: freeboxUrl + "/api_version" })` — GET, no body, no headers. -/
def discoveryReq (host port : String) : Request :=
  { url := freeboxUrlOf host port ++ "/api_version", method := .GET,
    body := .undefined, headers := [] }

/-- The `.catch` handler of `init` (lines 70-78): log (reading
`response.config`, and `response.config.url` when truthy), then emit
`application.error`. -/
def initCatch (e : JsValue) : M JsValue := do
  let cfg ← liftE (e.getProp "config")
  if cfg.truthy then do
    let _ ← liftE (cfg.getProp "url")
    emit "application.error"
    pure .undefined
  else do
    emit "application.error"
    pure .undefined

/-- The `.then` body of `init` (lines 55-69): require a `uid` field, store
the discovered identity with the derived `baseUrl`
(`freeboxUrl + api_base_url + "v" + api_version.substr(0, api_version.indexOf('.'))`),
then start registration unless already granted.  The registration promise is
neither returned nor awaited in the source, hence `detach`. -/
def initThen (o : Oracle) (host port : String) (fuel : Nat) : M JsValue := do
  let w ← getW
  modifyW (fun w1 => { w1 with trace := w1.trace ++ [discoveryReq host port] })
  match o w.trace.length with
  | .err e => throwJs e
  | .ok d => do
    let hasUid ← liftE (hasProp d "uid")
    if !hasUid then
      throwJs (.str "No uid in response")
    else do
      let uid ← liftE (d.getProp "uid")
      let deviceName ← liftE (d.getProp "device_name")
      let deviceType ← liftE (d.getProp "device_type")
      let abu ← liftE (d.getProp "api_base_url")
      let avRaw ← liftE (d.getProp "api_version")
      let av ← liftE (asJsString avRaw)
      modifyW (fun w1 => { w1 with freebox :=
        { uid := uid, deviceName := deviceName, deviceType := deviceType,
          baseUrl := freeboxUrlOf host port ++ jsTemplateStr abu ++ "v" ++
            jsSubstrTo av (jsIndexOf av '.') } })
      let w2 ← getW
      if isStr w2.application.status "granted" then
        pure .undefined
      else do
        detach (registerApplication o fuel)
        pure .undefined

/-- `init(config)` (lines 52-79): the discovery call with its `.then` body
and `.catch` handler. -/
def init (o : Oracle) (host port : String) (fuel : Nat) : M JsValue :=
  tryM (initThen o host port fuel) initCatch

/-- A transport response whose decoded body is the Freebox success envelope
`{ result: v }`. -/
def okResult (v : JsValue) : TransportResult := .ok (.obj [("result", v)])

/-- The login-status request issued by `refreshSession`. -/
def loginReq (w : World) : Request := mkReq w "/login" .undefined []

/-- The open-session request issued by `refreshSession` when not logged in,
with the challenge-response password. -/
def sessionReq (w : World) (tok ch : String) : Request :=
  mkReq w "/login/session"
    (.obj [("app_id", .str APPLICATION.appId),
           ("app_version", .str APPLICATION.appVersion),
           ("password", .str (hmacSha1Hex tok ch))]) []

/-- The authorize-status polling request for a track id. -/
def pollReq (w : World) (tid : String) : Request :=
  mkReq w ("/login/authorize/" ++ tid) .undefined []

/-- The body of the fresh-authorize request. -/
def authorizeBody : JsValue :=
  .obj [("app_id", .str APPLICATION.appId), ("app_name", .str APPLICATION.appName),
        ("app_version", .str APPLICATION.appVersion),
        ("device_name", .str APPLICATION.deviceName)]

/-- The fresh-authorize request. -/
def authorizeReq (w : World) : Request := mkReq w "/login/authorize" authorizeBody []

/-- The node state after one `timeout` poll answer: `application.timeout`
emitted, every credential, application and session field discarded, the poll
request on the trace. -/
def afterTimeout (w : World) (tid : String) : World :=
  { freebox := w.freebox
    application := emptyApp
    session := emptySession
    credentials := .obj []
    extStore := .undefined
    events := w.events ++ ["application.timeout"]
    trace := w.trace ++ [pollReq w tid] }

/-- The node state after a fresh authorize call answered with a new token
and track id. -/
def afterAuthorize (w : World) (tok2 tid2 : String) : World :=
  { w with
    application := { token := .str tok2, trackId := .str tid2, status := .str "" }
    trace := w.trace ++ [authorizeReq w] }

/-- The node state after one `pending` poll answer. -/
def afterPending (w : World) (tid : String) : World :=
  { w with
    application := { w.application with status := .str "pending" }
    events := w.events ++ ["application.pending"]
    trace := w.trace ++ [pollReq w tid] }

/-- A request that does not carry the `X-Fbx-App-Auth` header. -/
def noAuthHeader (r : Request) : Prop :=
  ∀ p ∈ r.headers, p.1 ≠ "X-Fbx-App-Auth"

/-- A computation only appends requests to the trace, and every appended
request satisfies `P`. -/
def TraceOK (P : Request → Prop) (x : M α) : Prop :=
  ∀ w, ∃ δ, ((x w).2).trace = w.trace ++ δ ∧ ∀ r ∈ δ, P r

/-- A computation never changes the discovered device identity. -/
def FbOK (x : M α) : Prop :=
  ∀ w, ((x w).2).freebox = w.freebox

/-- A computation issues no request at all. -/
def TraceConst (x : M α) : Prop :=
  ∀ w, ((x w).2).trace = w.trace

/-- A registered, granted node state used as the concrete start state of the
witness scenarios: app token `"t"`, track id `"42"`, empty session. -/
def w0 : World :=
  { freebox :=
      { uid := .str "abc", deviceName := .str "Freebox", deviceType := .str "FreeboxServer",
        baseUrl := "http://192.168.1.254:80/api/v8" }
    application := { token := .str "t", trackId := .str "42", status := .str "granted" }
    session := { token := .str "", permissions := .obj [] }
    credentials := .obj []
    extStore := .undefined
    events := []
    trace := [] }

/-- An axios rejection value for a transport failure: it carries the request
`config` (with `method` and `url`), as every axios error does. -/
def axiosErr : JsValue :=
  .obj [("message", .str "Network Error"),
        ("config", .obj [("method", .str "get"), ("url", .str "http://example/x")])]

/-- Script: login-status says logged in; every later call fails in
transport. -/
def oLoggedInThenFail : Oracle := fun n =>
  if n = 0 then okResult (.obj [("logged_in", .bool true)]) else .err axiosErr

/-- Script: login-status says not logged in with challenge `"c"`; the
open-session call fails in transport. -/
def oChallengeThenFail : Oracle := fun n =>
  if n = 0 then okResult (.obj [("logged_in", .bool false), ("challenge", .str "c")])
  else .err axiosErr

/-- Script: login-status says not logged in with challenge `"c"`; the
open-session call succeeds. -/
def oChallengeThenOpen : Oracle := fun n =>
  if n = 0 then okResult (.obj [("logged_in", .bool false), ("challenge", .str "c")])
  else okResult (.obj [("session_token", .str "S"), ("permissions", .obj [("settings", .bool true)])])

/-- Script: every login-status call says logged in. -/
def oLoggedIn : Oracle := fun _ => okResult (.obj [("logged_in", .bool true)])

/-- Script: every poll reports `pending`. -/
def oPending : Oracle := fun _ => okResult (.obj [("status", .str "pending")])

/-- Script: the first poll reports `timeout`, the authorize call then issues
token `"T2"` and track id `"99"`, and the following poll reports
`pending`. -/
def oTimeoutScript : Oracle := fun n =>
  if n = 0 then okResult (.obj [("status", .str "timeout")])
  else if n = 1 then okResult (.obj [("app_token", .str "T2"), ("track_id", .str "99")])
  else okResult (.obj [("status", .str "pending")])

/-- Script: discovery returns the end-to-end example of the spec. -/
def oDiscovery : Oracle := fun _ =>
  .ok (.obj [("uid", .str "abc"), ("device_name", .str "fb"), ("device_type", .str "fbx"),
             ("api_base_url", .str "/api/"), ("api_version", .str "8.0")])

/-- Script: every request is rejected with a bare string error (no `config`
field), as a throw inside the promise chain would produce. -/
def oPlainFailure : Oracle := fun _ => .err (.str "boom")

/-- Unfolding a chained promise step at a concrete state. -/
theorem M_bind_apply {α β : Type} (x : M α) (f : α → M β) (w : World) :
    (x >>= f) w =
      match x w with
      | (Except.ok a, w1) => f a w1
      | (Except.error e, w1) => (Except.error e, w1) := rfl

/-- Unfolding a resolved promise at a concrete state. -/
theorem M_pure_apply {α : Type} (a : α) (w : World) :
    (pure a : M α) w = (Except.ok a, w) := rfl

/-- A lifted synchronous step leaves the state untouched. -/
theorem liftE_apply {α : Type} (ex : Except JsValue α) (w : World) :
    liftE ex w = (ex, w) := by
  cases ex <;> rfl

/-- A resolved promise issues no request. -/
theorem traceConst_pure {α : Type} (a : α) : TraceConst (pure a : M α) :=
  fun _ => rfl

/-- A lifted synchronous step issues no request. -/
theorem traceConst_liftE {α : Type} (ex : Except JsValue α) : TraceConst (liftE ex) := by
  intro w; rw [liftE_apply]

/-- An event emission issues no request. -/
theorem traceConst_emit (name : String) : TraceConst (emit name) :=
  fun _ => rfl

/-- A state update that keeps the trace field issues no request. -/
theorem traceConst_modifyW (f : World → World) (hf : ∀ w, (f w).trace = w.trace) :
    TraceConst (modifyW f) :=
  fun w => hf w

/-- Chaining two requestless steps is requestless. -/
theorem traceConst_bind {α β : Type} {x : M α} {f : α → M β}
    (hx : TraceConst x) (hf : ∀ a, TraceConst (f a)) : TraceConst (x >>= f) := by
  intro w
  rw [M_bind_apply]
  rcases h : x w with ⟨r, w1⟩
  have hw1 : w1.trace = w.trace := by
    have := hx w; rw [h] at this; exact this
  cases r with
  | ok a => simpa [hw1] using hf a w1
  | error e => simpa using hw1

/-- The trace after a chain whose continuation issues no request is the trace
after its head. -/
theorem bind_trace_of_const {α β : Type} (x : M α) (f : α → M β)
    (hf : ∀ a, TraceConst (f a)) (w : World) :
    (((x >>= f) w).2).trace = (((x w).2)).trace := by
  rw [M_bind_apply]
  rcases h : x w with ⟨r, w1⟩
  cases r with
  | ok a => simpa using hf a w1
  | error e => simp

/-- Variant of `bind_trace_of_const` for a chain already unfolded into its
case split. -/
theorem match_trace_of_const {β : Type} (p : Except JsValue JsValue × World) (f : JsValue → M β)
    (hf : ∀ a, TraceConst (f a)) :
    ((match p with
      | (Except.ok a, w1) => f a w1
      | (Except.error e, w1) => (Except.error e, w1)).2).trace = (p.2).trace := by
  rcases p with ⟨r, w1⟩
  cases r with
  | ok a => simpa using hf a w1
  | error e => rfl

/-- `_internalApiCall` always changes the state in exactly one way: it
appends the single request built by `mkReq` to the trace — whatever the
transport then does with it. -/
theorem internalApiCall_state (o : Oracle) (u : String) (d : JsValue)
    (hs : List (String × JsValue)) (w : World) :
    ((internalApiCall o u d hs w).2) = { w with trace := w.trace ++ [mkReq w u d hs] } := by
  simp only [internalApiCall, M_bind_apply, getW, modifyW]
  rcases ho : o w.trace.length with d2 | e
  · rcases hg : d2.getProp "result" with e2 | v
    · simp [hg, liftE_apply]
    · simp [hg, M_pure_apply]
  · simp [liftE_apply]

/-- Claim C1 (evidence of the divergence): a transport failure during a
signed API call does not reach the caller of `apiCall` as a rejection — the
promise RESOLVES, with the axios error object as its value, because the
`.catch` of `_internalApiCall` returns the rejection value instead of
rethrowing it. -/
theorem C1_transport_failure_resolved_not_rejected :
    (apiCall oLoggedInThenFail "/x" .undefined w0).1 = Except.ok axiosErr := rfl

/-- Claim C2 (evidence of the divergence): when the open-session call fails
in transport, `refreshSession` still resolves, still emits `session.opened`,
and commits a partial session (`sessionToken` and `permissions` both set to
`undefined` read off the error object), instead of leaving the session
cleared. -/
theorem C2_failed_open_session_commits_partial_state :
    (refreshSession oChallengeThenFail w0).1 = Except.ok .undefined ∧
    (refreshSession oChallengeThenFail w0).2.events = ["session.opened"] ∧
    (refreshSession oChallengeThenFail w0).2.session.token = .undefined ∧
    (refreshSession oChallengeThenFail w0).2.session.permissions = .undefined :=
  ⟨rfl, rfl, rfl, rfl⟩

/-- A freshly built TypeError value reports as one. -/
theorem isTypeErrorVal_typeErrorVal (m : String) : isTypeErrorVal (typeErrorVal m) = true := rfl

/-- Claim C10: when the transport rejects with a value that has no `config`
field, the `.catch` of `_internalApiCall` itself throws while building its
log line (`response.config.method`), so the promise rejects with a secondary
`TypeError` and never with the original error. -/
theorem C10_missing_config_secondary_type_error
    (o : Oracle) (u : String) (d : JsValue) (hs : List (String × JsValue))
    (w : World) (e : JsValue)
    (hResp : o w.trace.length = .err e)
    (hNoCfg : lacksConfig e = true) :
    ∃ m, internalApiCall o u d hs w =
        (Except.error (typeErrorVal m), { w with trace := w.trace ++ [mkReq w u d hs] }) ∧
      (isTypeErrorVal e = false → typeErrorVal m ≠ e) := by
  have hstate := internalApiCall_state o u d hs w
  have h1 : (internalApiCall o u d hs w).1 = catchHandler e := by
    simp only [internalApiCall, M_bind_apply, getW, modifyW, hResp, liftE_apply]
  have hrun : internalApiCall o u d hs w =
      (catchHandler e, { w with trace := w.trace ++ [mkReq w u d hs] }) := by
    calc internalApiCall o u d hs w
        = ((internalApiCall o u d hs w).1, (internalApiCall o u d hs w).2) := rfl
      _ = (catchHandler e, { w with trace := w.trace ++ [mkReq w u d hs] }) := by
          rw [h1, hstate]
  have hne : ∀ m, isTypeErrorVal e = false → typeErrorVal m ≠ e := by
    intro m hf heq
    rw [← heq] at hf
    simp [isTypeErrorVal_typeErrorVal] at hf
  cases e with
  | undefined =>
      exact ⟨"Cannot read properties of undefined: config", by rw [hrun]; rfl, hne _⟩
  | null =>
      exact ⟨"Cannot read properties of null: config", by rw [hrun]; rfl, hne _⟩
  | bool b =>
      exact ⟨"Cannot read properties of undefined: method", by rw [hrun]; rfl, hne _⟩
  | num n =>
      exact ⟨"Cannot read properties of undefined: method", by rw [hrun]; rfl, hne _⟩
  | str s =>
      exact ⟨"Cannot read properties of undefined: method", by rw [hrun]; rfl, hne _⟩
  | obj fs =>
      rcases hG : getField fs "config" with _ | _ | b | n | s | l
      case undefined =>
        refine ⟨"Cannot read properties of undefined: method", ?_, hne _⟩
        rw [hrun]
        simp [catchHandler, JsValue.getProp, hG]
      all_goals simp [lacksConfig, hG] at hNoCfg

/-- Witness for C10: a chain rejected with the bare string `"boom"` makes
`_internalApiCall` reject with a `TypeError`, not with `"boom"`. -/
theorem C10_witness :
    ∃ m, internalApiCall oPlainFailure "/x" .undefined [] w0 =
        (Except.error (typeErrorVal m),
         { w0 with trace := w0.trace ++ [mkReq w0 "/x" .undefined []] }) ∧
      (isTypeErrorVal (.str "boom") = false → typeErrorVal m ≠ .str "boom") :=
  C10_missing_config_secondary_type_error oPlainFailure "/x" .undefined [] w0 (.str "boom") rfl rfl

/-- When the transport resolves a request with a success envelope,
`_internalApiCall` resolves with the unwrapped `result` and appends exactly
the built request. -/
theorem internalApiCall_okResult (o : Oracle) (u : String) (d : JsValue)
    (hs : List (String × JsValue)) (w : World) (v : JsValue)
    (hResp : o w.trace.length = okResult v) :
    internalApiCall o u d hs w =
      (Except.ok v, { w with trace := w.trace ++ [mkReq w u d hs] }) := by
  simp only [internalApiCall, M_bind_apply, getW, modifyW, hResp, okResult,
    JsValue.getProp, getField, M_pure_apply]
  simp

/-- The open-session continuation issues no request. -/
theorem traceConst_openSessionThen (r2 : JsValue) : TraceConst (openSessionThen r2) := by
  intro w
  rcases h1 : r2.getProp "session_token" with e | st <;>
    rcases h2 : r2.getProp "permissions" with e2 | p <;>
      simp [openSessionThen, M_bind_apply, liftE_apply, h1, h2, emit, modifyW, M_pure_apply]

/-- Claim C4: when the login-status response says `logged_in = false` with a
challenge string, `refreshSession` issues exactly one open-session call —
whatever the transport then answers to it — and its `password` field is the
hex HMAC-SHA1 of the challenge keyed with the stored app token. -/
theorem C4_exactly_one_open_session_with_hmac_password
    (o : Oracle) (w : World) (fs : List (String × JsValue)) (tok ch : String)
    (hTok : w.application.token = .str tok)
    (hResp : o w.trace.length = okResult (.obj fs))
    (hLogged : getField fs "logged_in" = .bool false)
    (hCh : getField fs "challenge" = .str ch) :
    ((refreshSession o w).2).trace = w.trace ++ [loginReq w, sessionReq w tok ch] := by
  have h1 := internalApiCall_okResult o "/login" .undefined [] w (.obj fs) hResp
  simp only [refreshSession, M_bind_apply, h1, liftE_apply, JsValue.getProp, hLogged, hCh,
    JsValue.truthy]
  simp only [Bool.false_eq_true, if_false, getW, M_bind_apply, liftE_apply, hmacJs, hTok]
  rcases hI : internalApiCall o "/login/session"
      (JsValue.obj
        [("app_id", JsValue.str APPLICATION.appId),
         ("app_version", JsValue.str APPLICATION.appVersion),
         ("password", JsValue.str (hmacSha1Hex tok ch))]) []
      { freebox := w.freebox, application := w.application, session := w.session,
        credentials := w.credentials, extStore := w.extStore, events := w.events,
        trace := w.trace ++ [mkReq w "/login" JsValue.undefined []] } with ⟨r, w2⟩
  have hw2 := internalApiCall_state o "/login/session"
      (JsValue.obj
        [("app_id", JsValue.str APPLICATION.appId),
         ("app_version", JsValue.str APPLICATION.appVersion),
         ("password", JsValue.str (hmacSha1Hex tok ch))]) []
      { freebox := w.freebox, application := w.application, session := w.session,
        credentials := w.credentials, extStore := w.extStore, events := w.events,
        trace := w.trace ++ [mkReq w "/login" JsValue.undefined []] }
  rw [hI] at hw2
  simp at hw2
  cases r with
  | ok a =>
      show ((openSessionThen a w2).2).trace = _
      rw [traceConst_openSessionThen a w2, hw2]
      simp [mkReq, sessionReq, loginReq]
  | error e =>
      show w2.trace = _
      rw [hw2]
      simp [mkReq, sessionReq, loginReq]

/-- Witness for C4. -/
theorem C4_witness :
    ((refreshSession oChallengeThenOpen w0).2).trace =
      w0.trace ++ [loginReq w0, sessionReq w0 "t" "c"] :=
  C4_exactly_one_open_session_with_hmac_password oChallengeThenOpen w0
    [("logged_in", .bool false), ("challenge", .str "c")] "t" "c" rfl rfl rfl rfl

/-- Claim C8: when the login-status response says `logged_in = true`,
`refreshSession` resolves after that single request: no open-session call is
issued, no event is emitted, and the session fields (indeed the whole state
but for the trace) are unchanged. -/
theorem C8_logged_in_is_a_no_op
    (o : Oracle) (w : World) (fs : List (String × JsValue))
    (hResp : o w.trace.length = okResult (.obj fs))
    (hLogged : getField fs "logged_in" = .bool true) :
    refreshSession o w = (Except.ok .undefined, { w with trace := w.trace ++ [loginReq w] }) := by
  simp only [refreshSession, internalApiCall, M_bind_apply, M_pure_apply, getW, modifyW,
    liftE_apply, hResp, okResult, JsValue.getProp, getField, hLogged, JsValue.truthy, loginReq,
    mkReq]
  simp [hLogged, M_pure_apply]

/-- Witness for C8. -/
theorem C8_witness :
    refreshSession oLoggedIn w0 =
      (Except.ok .undefined, { w0 with trace := w0.trace ++ [loginReq w0] }) :=
  C8_logged_in_is_a_no_op oLoggedIn w0 [("logged_in", .bool true)] rfl rfl

/-- JS `indexOf` of a character sitting right after a prefix that does not
contain it. -/
theorem jsIndexOfAux_append (c : Char) (l1 l2 : List Char) (h : c ∉ l1) :
    jsIndexOfAux c (l1 ++ c :: l2) = l1.length := by
  induction l1 with
  | nil => simp [jsIndexOfAux]
  | cons a l ih =>
      have ha : a ≠ c := by
        intro e
        exact h (by simp [e])
      have h' : c ∉ l := fun hc => h (List.mem_cons_of_mem a hc)
      simp only [List.cons_append, jsIndexOfAux, ha, if_false, List.append_eq]
      rw [ih h']
      rw [if_neg (by omega : ¬((l.length : Int) < 0))]
      simp only [List.length_cons]
      push_cast
      omega

/-- `version.substr(0, version.indexOf('.'))` recovers the major component
of a dotted version string. -/
theorem jsSubstr_before_dot (major rest : String) (h : ('.' : Char) ∉ major.data) :
    jsSubstrTo (major ++ "." ++ rest) (jsIndexOf (major ++ "." ++ rest) '.') = major := by
  have hdata : (major ++ "." ++ rest).data = major.data ++ '.' :: rest.data := by
    simp [String.data_append]
  rw [jsIndexOf, hdata, jsIndexOfAux_append '.' major.data rest.data h]
  unfold jsSubstrTo
  rw [hdata]
  by_cases hm : ((major.data.length : Int)) ≤ 0
  · have h0 : major.data.length = 0 := by omega
    have hnil : major.data = [] := List.length_eq_zero.mp h0
    rw [if_pos hm]
    apply String.ext
    rw [hnil]
  · rw [if_neg hm]
    rw [Int.toNat_natCast]
    rw [List.take_left]

/-- A resolved promise keeps the device identity. -/
theorem fbOK_pure {α : Type} (a : α) : FbOK (pure a : M α) := fun _ => rfl

/-- Reading the state keeps the device identity. -/
theorem fbOK_getW : FbOK getW := fun _ => rfl

/-- A lifted synchronous step keeps the device identity. -/
theorem fbOK_liftE {α : Type} (ex : Except JsValue α) : FbOK (liftE ex) := by
  intro w; rw [liftE_apply]

/-- An event emission keeps the device identity. -/
theorem fbOK_emit (s : String) : FbOK (emit s) := fun _ => rfl

/-- A state update that keeps the `freebox` field keeps the device
identity. -/
theorem fbOK_modifyW (f : World → World) (hf : ∀ w, (f w).freebox = w.freebox) :
    FbOK (modifyW f) := hf

/-- A detached promise keeps the device identity when its body does. -/
theorem fbOK_detach {α : Type} (x : M α) (hx : FbOK x) : FbOK (detach x) := fun w => hx w

/-- Chaining keeps the device identity. -/
theorem fbOK_bind {α β : Type} {x : M α} {f : α → M β}
    (hx : FbOK x) (hf : ∀ a, FbOK (f a)) : FbOK (x >>= f) := by
  intro w
  rw [M_bind_apply]
  rcases h : x w with ⟨r, w1⟩
  have hw1 : w1.freebox = w.freebox := by
    have := hx w; rw [h] at this; exact this
  cases r with
  | ok a => simpa [hw1] using hf a w1
  | error e => simpa using hw1

/-- A transport call keeps the device identity. -/
theorem fbOK_internalApiCall (o : Oracle) (u : String) (d : JsValue)
    (hs : List (String × JsValue)) : FbOK (internalApiCall o u d hs) := by
  intro w
  rw [internalApiCall_state]

/-- A branch keeps the device identity when both arms do. -/
theorem fbOK_ite {α : Type} (c : Prop) [Decidable c] (x y : M α)
    (hx : FbOK x) (hy : FbOK y) : FbOK (if c then x else y) := by
  split
  · exact hx
  · exact hy

/-- The registrar, at any fuel and against any transport, never touches the
discovered device identity. -/
theorem fbOK_registerApplication (o : Oracle) : ∀ fuel, FbOK (registerApplication o fuel) := by
  intro fuel
  induction fuel with
  | zero =>
      intro w
      simp [registerApplication, M_pure_apply]
  | succ n ih =>
      simp only [registerApplication]
      apply fbOK_bind fbOK_getW
      intro w
      apply fbOK_ite
      · apply fbOK_bind (fbOK_internalApiCall o _ _ _)
        intro r
        apply fbOK_bind (fbOK_liftE _)
        intro status
        refine fbOK_bind (fbOK_modifyW _ ?_) ?_
        · exact fun _ => rfl
        intro u1
        apply fbOK_ite
        · apply fbOK_bind (fbOK_emit _)
          intro u2
          apply fbOK_bind (fbOK_detach _ ih)
          intro u3
          exact fbOK_pure _
        · apply fbOK_ite
          · apply fbOK_bind (fbOK_emit _)
            intro u2
            refine fbOK_bind (fbOK_modifyW _ ?_) ?_
            · exact fun _ => rfl
            intro u3
            refine fbOK_bind (fbOK_modifyW _ ?_) ?_
            · exact fun _ => rfl
            intro u4
            exact fbOK_pure _
          · apply fbOK_ite
            · apply fbOK_bind (fbOK_emit _)
              intro u2
              refine fbOK_bind (fbOK_modifyW _ ?_) ?_
              · exact fun _ => rfl
              intro u3
              apply fbOK_bind (fbOK_detach _ ih)
              intro u4
              exact fbOK_pure _
            · apply fbOK_bind (fbOK_emit _)
              intro u2
              refine fbOK_bind (fbOK_modifyW _ ?_) ?_
              · exact fun _ => rfl
              intro u3
              exact fbOK_pure _
      · apply fbOK_bind (fbOK_internalApiCall o _ _ _)
        intro r
        apply fbOK_bind (fbOK_liftE _)
        intro a
        apply fbOK_bind (fbOK_liftE _)
        intro t
        refine fbOK_bind (fbOK_modifyW _ ?_) ?_
        · exact fun _ => rfl
        intro u1
        exact ih

/-- Reading the state issues no request. -/
theorem traceConst_getW : TraceConst getW := fun _ => rfl

/-- A rejection issues no request. -/
theorem traceConst_throwJs {α : Type} (e : JsValue) : TraceConst (throwJs e : M α) :=
  fun _ => rfl

/-- A requestless computation satisfies any trace predicate. -/
theorem traceOK_of_const {α : Type} {P : Request → Prop} {x : M α} (hx : TraceConst x) :
    TraceOK P x := by
  intro w
  refine ⟨[], ?_, by simp⟩
  simpa using hx w

/-- Chaining preserves a trace predicate. -/
theorem traceOK_bind {α β : Type} {P : Request → Prop} {x : M α} {f : α → M β}
    (hx : TraceOK P x) (hf : ∀ a, TraceOK P (f a)) : TraceOK P (x >>= f) := by
  intro w
  rw [M_bind_apply]
  rcases h : x w with ⟨r, w1⟩
  obtain ⟨δ1, hδ1, hP1⟩ := hx w
  have hδ1w : w1.trace = w.trace ++ δ1 := by rw [h] at hδ1; exact hδ1
  cases r with
  | ok a =>
      obtain ⟨δ2, hδ2, hP2⟩ := hf a w1
      refine ⟨δ1 ++ δ2, ?_, ?_⟩
      · rw [hδ2, hδ1w, List.append_assoc]
      · intro q hq
        rcases List.mem_append.mp hq with h1 | h2
        · exact hP1 q h1
        · exact hP2 q h2
  | error e => exact ⟨δ1, hδ1w, hP1⟩

/-- A transport call preserves a trace predicate its request satisfies. -/
theorem traceOK_internalApiCall {P : Request → Prop} (o : Oracle) (u : String) (d : JsValue)
    (hs : List (String × JsValue)) (hP : ∀ w, P (mkReq w u d hs)) :
    TraceOK P (internalApiCall o u d hs) := by
  intro w
  refine ⟨[mkReq w u d hs], ?_, ?_⟩
  · rw [internalApiCall_state]
  · intro q hq
    rw [List.mem_singleton] at hq
    subst hq
    exact hP w

/-- A branch preserves a trace predicate when both arms do. -/
theorem traceOK_ite {α : Type} {P : Request → Prop} (c : Prop) [Decidable c] (x y : M α)
    (hx : TraceOK P x) (hy : TraceOK P y) : TraceOK P (if c then x else y) := by
  split
  · exact hx
  · exact hy

/-- A detached promise preserves a trace predicate when its body does. -/
theorem traceOK_detach {α : Type} {P : Request → Prop} (x : M α) (hx : TraceOK P x) :
    TraceOK P (detach x) := fun w => hx w

/-- Appending one request satisfying `P` preserves the predicate. -/
theorem traceOK_modify_append {P : Request → Prop} (req : Request) (hP : P req) :
    TraceOK P (modifyW (fun w1 => { w1 with trace := w1.trace ++ [req] })) := by
  intro w
  refine ⟨[req], rfl, ?_⟩
  intro q hq
  rw [List.mem_singleton] at hq
  subst hq
  exact hP

/-- A caught chain preserves a trace predicate when body and handler do. -/
theorem traceOK_tryM {α : Type} {P : Request → Prop} {x : M α} {h : JsValue → M α}
    (hx : TraceOK P x) (hh : ∀ e, TraceOK P (h e)) : TraceOK P (tryM x h) := by
  intro w
  obtain ⟨δ1, hδ1, hP1⟩ := hx w
  rcases hxw : x w with ⟨r, w1⟩
  have hδ1w : w1.trace = w.trace ++ δ1 := by rw [hxw] at hδ1; exact hδ1
  cases r with
  | ok a =>
      refine ⟨δ1, ?_, hP1⟩
      simp only [tryM, hxw]
      exact hδ1w
  | error e =>
      obtain ⟨δ2, hδ2, hP2⟩ := hh e w1
      refine ⟨δ1 ++ δ2, ?_, ?_⟩
      · simp only [tryM, hxw]
        rw [hδ2, hδ1w, List.append_assoc]
      · intro q hq
        rcases List.mem_append.mp hq with h1 | h2
        · exact hP1 q h1
        · exact hP2 q h2

/-- A request with an empty header list has no auth header. -/
theorem noAuthHeader_of_empty (w : World) (u : String) (d : JsValue) :
    noAuthHeader (mkReq w u d []) := by
  intro p hp
  simp [mkReq] at hp

/-- `refreshSession` never sends the `X-Fbx-App-Auth` header: both the
login-status and the open-session calls go out with empty headers. -/
theorem noauth_refreshSession (o : Oracle) : TraceOK noAuthHeader (refreshSession o) := by
  simp only [refreshSession]
  apply traceOK_bind (traceOK_internalApiCall o _ _ _ (fun w => noAuthHeader_of_empty w _ _))
  intro r
  apply traceOK_bind (traceOK_of_const (traceConst_liftE _))
  intro logged_in
  apply traceOK_bind (traceOK_of_const (traceConst_liftE _))
  intro challenge
  apply traceOK_ite
  · exact traceOK_of_const (traceConst_pure _)
  · apply traceOK_bind (traceOK_of_const traceConst_getW)
    intro w
    apply traceOK_bind (traceOK_of_const (traceConst_liftE _))
    intro password
    apply traceOK_bind (traceOK_internalApiCall o _ _ _ (fun w1 => noAuthHeader_of_empty w1 _ _))
    intro r2
    exact traceOK_of_const (traceConst_openSessionThen r2)

/-- The registrar never sends the `X-Fbx-App-Auth` header: authorize and
authorize-status polls go out with empty headers, at any fuel. -/
theorem noauth_registerApplication (o : Oracle) :
    ∀ fuel, TraceOK noAuthHeader (registerApplication o fuel) := by
  intro fuel
  induction fuel with
  | zero =>
      simp only [registerApplication]
      exact traceOK_of_const (traceConst_pure _)
  | succ n ih =>
      simp only [registerApplication]
      apply traceOK_bind (traceOK_of_const traceConst_getW)
      intro w
      apply traceOK_ite
      · apply traceOK_bind
          (traceOK_internalApiCall o _ _ _ (fun w1 => noAuthHeader_of_empty w1 _ _))
        intro r
        apply traceOK_bind (traceOK_of_const (traceConst_liftE _))
        intro status
        refine traceOK_bind (traceOK_of_const (traceConst_modifyW _ ?_)) ?_
        · exact fun _ => rfl
        intro u1
        apply traceOK_ite
        · apply traceOK_bind (traceOK_of_const (traceConst_emit _))
          intro u2
          apply traceOK_bind (traceOK_detach _ ih)
          intro u3
          exact traceOK_of_const (traceConst_pure _)
        · apply traceOK_ite
          · apply traceOK_bind (traceOK_of_const (traceConst_emit _))
            intro u2
            refine traceOK_bind (traceOK_of_const (traceConst_modifyW _ ?_)) ?_
            · exact fun _ => rfl
            intro u3
            refine traceOK_bind (traceOK_of_const (traceConst_modifyW _ ?_)) ?_
            · exact fun _ => rfl
            intro u4
            exact traceOK_of_const (traceConst_pure _)
          · apply traceOK_ite
            · apply traceOK_bind (traceOK_of_const (traceConst_emit _))
              intro u2
              refine traceOK_bind (traceOK_of_const (traceConst_modifyW _ ?_)) ?_
              · exact fun _ => rfl
              intro u3
              apply traceOK_bind (traceOK_detach _ ih)
              intro u4
              exact traceOK_of_const (traceConst_pure _)
            · apply traceOK_bind (traceOK_of_const (traceConst_emit _))
              intro u2
              refine traceOK_bind (traceOK_of_const (traceConst_modifyW _ ?_)) ?_
              · exact fun _ => rfl
              intro u3
              exact traceOK_of_const (traceConst_pure _)
      · apply traceOK_bind
          (traceOK_internalApiCall o _ _ _ (fun w1 => noAuthHeader_of_empty w1 _ _))
        intro r
        apply traceOK_bind (traceOK_of_const (traceConst_liftE _))
        intro a
        apply traceOK_bind (traceOK_of_const (traceConst_liftE _))
        intro t
        refine traceOK_bind (traceOK_of_const (traceConst_modifyW _ ?_)) ?_
        · exact fun _ => rfl
        intro u1
        exact ih

/-- `init` never sends the `X-Fbx-App-Auth` header: the discovery request
goes out with no headers, and everything it chains into is header-free. -/
theorem noauth_init (o : Oracle) (host port : String) (fuel : Nat) :
    TraceOK noAuthHeader (init o host port fuel) := by
  simp only [init]
  apply traceOK_tryM
  · simp only [initThen]
    apply traceOK_bind (traceOK_of_const traceConst_getW)
    intro w
    apply traceOK_bind
      (traceOK_modify_append (discoveryReq host port) (by intro p hp; simp [discoveryReq] at hp))
    intro u1
    rcases o w.trace.length with d | e
    · apply traceOK_bind (traceOK_of_const (traceConst_liftE _))
      intro hasUid
      apply traceOK_ite
      · exact traceOK_of_const (traceConst_throwJs _)
      · apply traceOK_bind (traceOK_of_const (traceConst_liftE _))
        intro uid
        apply traceOK_bind (traceOK_of_const (traceConst_liftE _))
        intro deviceName
        apply traceOK_bind (traceOK_of_const (traceConst_liftE _))
        intro deviceType
        apply traceOK_bind (traceOK_of_const (traceConst_liftE _))
        intro abu
        apply traceOK_bind (traceOK_of_const (traceConst_liftE _))
        intro avRaw
        apply traceOK_bind (traceOK_of_const (traceConst_liftE _))
        intro av
        refine traceOK_bind (traceOK_of_const (traceConst_modifyW _ ?_)) ?_
        · exact fun _ => rfl
        intro u2
        apply traceOK_bind (traceOK_of_const traceConst_getW)
        intro w2
        apply traceOK_ite
        · exact traceOK_of_const (traceConst_pure _)
        · apply traceOK_bind (traceOK_detach _ (noauth_registerApplication o fuel))
          intro u3
          exact traceOK_of_const (traceConst_pure _)
    · exact traceOK_of_const (traceConst_throwJs _)
  · intro e
    simp only [initCatch]
    apply traceOK_bind (traceOK_of_const (traceConst_liftE _))
    intro cfg
    apply traceOK_ite
    · apply traceOK_bind (traceOK_of_const (traceConst_liftE _))
      intro u1
      apply traceOK_bind (traceOK_of_const (traceConst_emit _))
      intro u2
      exact traceOK_of_const (traceConst_pure _)
    · apply traceOK_bind (traceOK_of_const (traceConst_emit _))
      intro u1
      exact traceOK_of_const (traceConst_pure _)

/-- Counterexample to claim C9 as stated: `apiCall('/x', '')` supplies a
body — the empty string, not `undefined` — yet the issued request is a GET,
because the source chooses the method by JS truthiness of `data`, not by its
presence. -/
theorem C9_counterexample_falsy_body_gets :
    ((apiCall oLoggedIn "/x" (.str "") w0).2).trace =
      w0.trace ++ [loginReq w0,
        { url := w0.freebox.baseUrl ++ "/x", method := .GET, body := .str "",
          headers := [("X-Fbx-App-Auth", .str "")] }] ∧
    JsValue.str "" ≠ JsValue.undefined :=
  ⟨rfl, fun h => JsValue.noConfusion h⟩

/-- Claim C9 amended: a call whose supplied body is truthy issues a POST and
one with no body — or a falsy body — issues a GET (the method is decided by
JS truthiness of `data`); the `X-Fbx-App-Auth` header is present on every
authorized call (the one request `apiCall` issues beyond the session
refresh), and absent from the discovery, authorize, authorize-status,
login-status (and open-session) calls. -/
theorem C9_amended_method_and_header_rule :
    (∀ (o : Oracle) (u : String) (d : JsValue) (hs : List (String × JsValue)) (w : World),
        ((internalApiCall o u d hs w).2).trace = w.trace ++ [mkReq w u d hs] ∧
        (mkReq w u d hs).method = (if d.truthy then Method.POST else Method.GET) ∧
        (mkReq w u d hs).headers = hs) ∧
    (∀ (o : Oracle) (u : String) (d : JsValue) (w r : World) (v : JsValue),
        refreshSession o w = (Except.ok v, r) →
        apiCall o u d w =
          internalApiCall o u d [("X-Fbx-App-Auth", r.session.token)] r) ∧
    (∀ (o : Oracle) (u : String) (d : JsValue) (w r : World) (e : JsValue),
        refreshSession o w = (Except.error e, r) →
        apiCall o u d w = (Except.error e, r)) ∧
    (∀ o : Oracle, TraceOK noAuthHeader (refreshSession o)) ∧
    (∀ (o : Oracle) (fuel : Nat), TraceOK noAuthHeader (registerApplication o fuel)) ∧
    (∀ (o : Oracle) (host port : String) (fuel : Nat),
        TraceOK noAuthHeader (init o host port fuel)) := by
  refine ⟨?_, ?_, ?_, ?_, ?_, ?_⟩
  · intro o u d hs w
    exact ⟨by rw [internalApiCall_state], rfl, rfl⟩
  · intro o u d w r v h
    simp only [apiCall, M_bind_apply, h, getW]
  · intro o u d w r e h
    simp only [apiCall, M_bind_apply, h]
  · exact noauth_refreshSession
  · exact noauth_registerApplication
  · exact noauth_init

/-- Witness for the amended C9, at a logged-in session script. -/
theorem C9_witness :
    apiCall oLoggedIn "/x" (.obj []) w0 =
      internalApiCall oLoggedIn "/x" (.obj [])
        [("X-Fbx-App-Auth", ((refreshSession oLoggedIn w0).2).session.token)]
        ((refreshSession oLoggedIn w0).2) :=
  C9_amended_method_and_header_rule.2.1 oLoggedIn "/x" (.obj []) w0
    ((refreshSession oLoggedIn w0).2) .undefined rfl

/-- Claim C5: for every discovery response carrying a `uid`, the stored
`baseUrl` is scheme://host:port, then `api_base_url`, then `"v"` followed by
the substring of `api_version` before its first dot — whatever the
application status and however registration then proceeds. -/
theorem C5_base_url_derivation
    (o : Oracle) (host port b major rest : String) (fuel : Nat) (w : World)
    (u dn dt : JsValue)
    (hMajor : ('.' : Char) ∉ major.data)
    (hResp : o w.trace.length =
      .ok (.obj [("uid", u), ("device_name", dn), ("device_type", dt),
                 ("api_base_url", .str b), ("api_version", .str (major ++ "." ++ rest))])) :
    ((init o host port fuel w).2).freebox.baseUrl =
      "http://" ++ host ++ ":" ++ port ++ b ++ "v" ++ major := by
  simp only [init, tryM, initThen, M_bind_apply, M_pure_apply, getW, modifyW, liftE_apply,
    hResp, hasProp, JsValue.getProp, getField, asJsString, jsTemplateStr, freeboxUrlOf,
    String.reduceEq, decide_True, Bool.not_true, Bool.false_eq_true, if_false,
    eq_self_iff_true, if_true, List.any_cons, List.any_nil, Bool.or_false, Bool.or_true,
    decide_False]
  rw [jsSubstr_before_dot major rest hMajor]
  split
  all_goals rename_i x r w1 heq
  all_goals split at heq
  · simp only [M_pure_apply, Prod.mk.injEq] at heq
    rw [← heq.2]
  · simp only [M_bind_apply, detach, M_pure_apply, Prod.mk.injEq] at heq
    rw [← heq.2, fbOK_registerApplication o fuel]
  · simp [M_pure_apply] at heq
  · simp [M_bind_apply, detach, M_pure_apply] at heq

/-- Witness for C5, on the end-to-end example: host 192.168.1.254:80,
`api_base_url = "/api/"`, `api_version = "8.0"` give
`baseUrl = "http://192.168.1.254:80/api/v8"`. -/
theorem C5_witness :
    ((init oDiscovery "192.168.1.254" "80" 0 w0).2).freebox.baseUrl =
      "http://" ++ "192.168.1.254" ++ ":" ++ "80" ++ "/api/" ++ "v" ++ "8" ∧
    ("http://" ++ "192.168.1.254" ++ ":" ++ "80" ++ "/api/" ++ "v" ++ "8" : String) =
      "http://192.168.1.254:80/api/v8" :=
  ⟨C5_base_url_derivation oDiscovery "192.168.1.254" "80" "/api/" "8" "0" 0 w0
      (.str "abc") (.str "fb") (.str "fbx") (by decide) rfl, by decide⟩

/-- One polling step answered `pending`: the registrar emits
`application.pending`, keeps its credentials, and recurses on the rest of
its fuel from `afterPending`. -/
theorem registerApplication_step_pending
    (o : Oracle) (fuel : Nat) (w : World) (tid : String)
    (hTrack : w.application.trackId = .str tid) (htid : tid ≠ "")
    (h : o w.trace.length = okResult (.obj [("status", .str "pending")])) :
    registerApplication o (fuel + 1) w =
      (Except.ok .undefined, ((registerApplication o fuel) (afterPending w tid)).2) := by
  have htr : (JsValue.str tid).truthy = true := by simp [JsValue.truthy, htid]
  have hpoll := internalApiCall_okResult o ("/login/authorize/" ++ tid)
    .undefined [] w (.obj [("status", .str "pending")]) h
  simp only [registerApplication, M_bind_apply, M_pure_apply, getW, modifyW, liftE_apply,
    hTrack, jsTemplateStr, htr, hpoll, JsValue.getProp, getField, isStr, emit, detach,
    decide_True, eq_self_iff_true, if_true]
  simp [afterPending, pollReq, mkReq, hTrack, detach, M_bind_apply, M_pure_apply, modifyW]

/-- One polling step answered `timeout`: the registrar emits
`application.timeout`, discards credentials, application and session state,
and recurses on the rest of its fuel from `afterTimeout`. -/
theorem registerApplication_step_timeout
    (o : Oracle) (fuel : Nat) (w : World) (tid : String)
    (hTrack : w.application.trackId = .str tid) (htid : tid ≠ "")
    (h : o w.trace.length = okResult (.obj [("status", .str "timeout")])) :
    registerApplication o (fuel + 1) w =
      (Except.ok .undefined, ((registerApplication o fuel) (afterTimeout w tid)).2) := by
  have htr : (JsValue.str tid).truthy = true := by simp [JsValue.truthy, htid]
  have hpoll := internalApiCall_okResult o ("/login/authorize/" ++ tid)
    .undefined [] w (.obj [("status", .str "timeout")]) h
  simp only [registerApplication, M_bind_apply, M_pure_apply, getW, modifyW, liftE_apply,
    hTrack, jsTemplateStr, htr, hpoll, JsValue.getProp, getField, isStr, emit, detach,
    decide_True, eq_self_iff_true, if_true]
  simp [afterTimeout, pollReq, mkReq, hTrack, detach, M_bind_apply, M_pure_apply, modifyW,
    discardAll]

/-- A registration step with no stored track id: the registrar issues the
fresh-authorize call, stores the returned token and track id, and
immediately recurses (chained) from `afterAuthorize`. -/
theorem registerApplication_step_authorize
    (o : Oracle) (fuel : Nat) (w : World) (tok2 tid2 : String)
    (hTrack : w.application.trackId = .undefined)
    (h : o w.trace.length =
      okResult (.obj [("app_token", .str tok2), ("track_id", .str tid2)])) :
    registerApplication o (fuel + 1) w =
      registerApplication o fuel (afterAuthorize w tok2 tid2) := by
  have hauth := internalApiCall_okResult o "/login/authorize"
    (.obj [("app_id", .str APPLICATION.appId), ("app_name", .str APPLICATION.appName),
           ("app_version", .str APPLICATION.appVersion),
           ("device_name", .str APPLICATION.deviceName)]) [] w
    (.obj [("app_token", .str tok2), ("track_id", .str tid2)]) h
  simp only [registerApplication, M_bind_apply, M_pure_apply, getW, modifyW, liftE_apply,
    hTrack, JsValue.truthy, Bool.false_eq_true, if_false, hauth, JsValue.getProp, getField]
  simp [afterAuthorize, authorizeReq, authorizeBody, mkReq]

/-- Claim C6: a `timeout` poll answer makes the registrar emit
`application.timeout`, discard the stored credentials, application and
session state (external store cleared, `credentials`/`application`/`session`
reset), then issue one fresh authorize request, store the token and track id
the transport returns for it, and resume polling that returned track id —
and when the new track id differs from the discarded one, the new poll
request is a different request, so the old track id is not re-polled. -/
theorem C6_timeout_discards_credentials_and_reauthorizes
    (o : Oracle) (w : World) (tid tok2 tid2 : String)
    (hTrack : w.application.trackId = .str tid) (htid : tid ≠ "") (htid2 : tid2 ≠ "")
    (h0 : o w.trace.length = okResult (.obj [("status", .str "timeout")]))
    (h1 : o (w.trace.length + 1) =
      okResult (.obj [("app_token", .str tok2), ("track_id", .str tid2)]))
    (h2 : o (w.trace.length + 2) = okResult (.obj [("status", .str "pending")])) :
    (registerApplication o 3 w).1 = Except.ok .undefined ∧
    ((registerApplication o 3 w).2).events =
      w.events ++ ["application.timeout", "application.pending"] ∧
    ((registerApplication o 3 w).2).trace =
      w.trace ++ [pollReq w tid, authorizeReq w, pollReq w tid2] ∧
    ((registerApplication o 3 w).2).application =
      { token := .str tok2, trackId := .str tid2, status := .str "pending" } ∧
    ((registerApplication o 3 w).2).extStore = .undefined ∧
    ((registerApplication o 3 w).2).credentials = .obj [] ∧
    ((registerApplication o 3 w).2).session = emptySession ∧
    (tid2 ≠ tid → pollReq w tid2 ≠ pollReq w tid) := by
  have h1' : o ((afterTimeout w tid).trace.length) =
      okResult (.obj [("app_token", .str tok2), ("track_id", .str tid2)]) := by
    have hl : (afterTimeout w tid).trace.length = w.trace.length + 1 := by
      simp [afterTimeout]
    rw [hl]; exact h1
  have h2' : o ((afterAuthorize (afterTimeout w tid) tok2 tid2).trace.length) =
      okResult (.obj [("status", .str "pending")]) := by
    have hl : (afterAuthorize (afterTimeout w tid) tok2 tid2).trace.length
        = w.trace.length + 2 := by
      simp [afterAuthorize, afterTimeout]
    rw [hl]; exact h2
  have s0 := registerApplication_step_timeout o 2 w tid hTrack htid h0
  have s1 := registerApplication_step_authorize o 1 (afterTimeout w tid) tok2 tid2 rfl h1'
  have s2 := registerApplication_step_pending o 0
    (afterAuthorize (afterTimeout w tid) tok2 tid2) tid2 rfl htid2 h2'
  have run : registerApplication o 3 w =
      (Except.ok .undefined, ((registerApplication o 0)
        (afterPending (afterAuthorize (afterTimeout w tid) tok2 tid2) tid2)).2) := by
    calc registerApplication o 3 w
        = registerApplication o (2 + 1) w := rfl
      _ = (Except.ok .undefined, ((registerApplication o 2) (afterTimeout w tid)).2) := s0
      _ = (Except.ok .undefined, ((registerApplication o (1 + 1)) (afterTimeout w tid)).2) := rfl
      _ = (Except.ok .undefined,
            ((registerApplication o 1) (afterAuthorize (afterTimeout w tid) tok2 tid2)).2) := by
          rw [s1]
      _ = (Except.ok .undefined,
            ((registerApplication o (0 + 1))
              (afterAuthorize (afterTimeout w tid) tok2 tid2)).2) := rfl
      _ = (Except.ok .undefined,
            ((Except.ok JsValue.undefined,
              ((registerApplication o 0)
                (afterPending (afterAuthorize (afterTimeout w tid) tok2 tid2) tid2)).2) :
              Except JsValue JsValue × World).2) := by
          rw [s2]
      _ = _ := rfl
  rw [run]
  refine ⟨rfl, ?_, ?_, ?_, ?_, ?_, ?_, ?_⟩
  · simp [registerApplication, M_pure_apply, afterPending, afterAuthorize, afterTimeout]
  · simp [registerApplication, M_pure_apply, afterPending, afterAuthorize, afterTimeout,
      pollReq, authorizeReq, mkReq]
  · simp [registerApplication, M_pure_apply, afterPending, afterAuthorize, afterTimeout]
  · simp [registerApplication, M_pure_apply, afterPending, afterAuthorize, afterTimeout]
  · simp [registerApplication, M_pure_apply, afterPending, afterAuthorize, afterTimeout]
  · simp [registerApplication, M_pure_apply, afterPending, afterAuthorize, afterTimeout]
  · intro hne heq
    have hu : (pollReq w tid2).url = (pollReq w tid).url := congrArg Request.url heq
    apply hne
    have hd := congrArg String.data hu
    simp only [pollReq, mkReq, String.data_append] at hd
    exact String.ext (List.append_cancel_left (List.append_cancel_left hd))

/-- Witness for C6, on the concrete timeout-reauthorize-pending script. -/
theorem C6_witness :
    (registerApplication oTimeoutScript 3 w0).1 = Except.ok .undefined ∧
    ((registerApplication oTimeoutScript 3 w0).2).events =
      w0.events ++ ["application.timeout", "application.pending"] ∧
    ((registerApplication oTimeoutScript 3 w0).2).trace =
      w0.trace ++ [pollReq w0 "42", authorizeReq w0, pollReq w0 "99"] ∧
    ((registerApplication oTimeoutScript 3 w0).2).application =
      { token := .str "T2", trackId := .str "99", status := .str "pending" } ∧
    ((registerApplication oTimeoutScript 3 w0).2).extStore = .undefined ∧
    ((registerApplication oTimeoutScript 3 w0).2).credentials = .obj [] ∧
    ((registerApplication oTimeoutScript 3 w0).2).session = emptySession ∧
    ("99" ≠ "42" → pollReq w0 "99" ≠ pollReq w0 "42") :=
  C6_timeout_discards_credentials_and_reauthorizes oTimeoutScript w0 "42" "T2" "99"
    rfl (by decide) (by decide) rfl rfl rfl

/-- Claim C7: under `n` consecutive `pending` poll responses — for every
`n` — the registrar resolves, emits `application.pending` once per poll,
keeps polling the same track id (the trace gains `n` copies of the same
authorize-status request), and leaves the stored `appToken` and `trackId`
unchanged. -/
theorem C7_pending_polls_keep_credentials
    (o : Oracle) :
    ∀ (n : Nat) (w : World) (tid : String),
      w.application.trackId = .str tid → tid ≠ "" →
      (∀ i, i < n → o (w.trace.length + i) = okResult (.obj [("status", .str "pending")])) →
      (registerApplication o n w).1 = Except.ok .undefined ∧
      ((registerApplication o n w).2).application.token = w.application.token ∧
      ((registerApplication o n w).2).application.trackId = w.application.trackId ∧
      ((registerApplication o n w).2).events = w.events ++ List.replicate n "application.pending" ∧
      ((registerApplication o n w).2).trace = w.trace ++ List.replicate n (pollReq w tid) := by
  intro n
  induction n with
  | zero =>
      intro w tid hTrack htid ho
      simp [registerApplication, M_pure_apply]
  | succ n ih =>
      intro w tid hTrack htid ho
      have htr : (JsValue.str tid).truthy = true := by
        simp [JsValue.truthy, htid]
      have hpoll := internalApiCall_okResult o
        ("/login/authorize/" ++ tid)
        .undefined [] w (.obj [("status", .str "pending")]) (by
          have := ho 0 (Nat.succ_pos n); simpa using this)
      obtain ⟨ih1, ih2, ih3, ih4, ih5⟩ := ih
        { freebox := w.freebox,
          application :=
            { token := w.application.token, trackId := JsValue.str tid,
              status := JsValue.str "pending" },
          session := w.session, credentials := w.credentials, extStore := w.extStore,
          events := w.events ++ ["application.pending"],
          trace := w.trace ++ [mkReq w ("/login/authorize/" ++ tid) JsValue.undefined []] }
        tid rfl htid (by
          intro i hi
          have hlen : (w.trace ++ [mkReq w ("/login/authorize/" ++ tid) JsValue.undefined []]).length + i
              = w.trace.length + (i + 1) := by
            simp [List.length_append]
            omega
          rw [hlen]
          exact ho (i + 1) (Nat.succ_lt_succ hi))
      simp only [registerApplication, M_bind_apply, M_pure_apply, getW, modifyW, liftE_apply,
        hTrack, jsTemplateStr, htr, hpoll, JsValue.getProp, getField, isStr, emit, detach,
        decide_True, eq_self_iff_true, if_true]
      refine ⟨by simp, ?_, ?_, ?_, ?_⟩
      · rw [ih2]
      · rw [ih3]
      · rw [ih4]
        simp [List.replicate_succ]
      · rw [ih5]
        simp [pollReq, mkReq, List.replicate_succ, JsValue.truthy]

/-- Witness for C7, at three consecutive pending responses. -/
theorem C7_witness :
    (registerApplication oPending 3 w0).1 = Except.ok .undefined ∧
    ((registerApplication oPending 3 w0).2).application.token = w0.application.token ∧
    ((registerApplication oPending 3 w0).2).application.trackId = w0.application.trackId ∧
    ((registerApplication oPending 3 w0).2).events =
      w0.events ++ List.replicate 3 "application.pending" ∧
    ((registerApplication oPending 3 w0).2).trace =
      w0.trace ++ List.replicate 3 (pollReq w0 "42") :=
  C7_pending_polls_keep_credentials oPending 3 w0 "42" rfl (by decide) (fun _ _ => rfl)

/-- Claim C3 (evidence of the divergence): every `logout()` invocation
throws a `TypeError` at once — the class has no `call` method (the trivia of
the bug: the method is named `apiCall`) — so the logout endpoint is never
called, `session.closed` is never emitted, the session fields are never
cleared, and the error escapes to the invoker instead of being logged and
swallowed. -/
theorem C3_logout_throws_and_does_nothing :
    (∀ w : World, logout w = (Except.error callIsNotAFunction, w)) ∧
      "call" ∉ FreeboxServerNodeMethods :=
  ⟨fun _ => rfl, by decide⟩

end Freebox
